import Mathlib

/-!
Shallow embedding of the JetStream subsystem of this NATS server snapshot
(`server/jetstream.go`).  Go `int64`/`int` values are modelled as `Int`,
`uint32` as `Nat`, Go maps as association lists or name lists, and Go
errors as `Except String`.  Each definition transcribes the control flow of
the correspondingly named Go function.
-/

/-- Account limits record (`JetStreamAccountLimits` in jetstream.go). -/
structure JetStreamAccountLimits where
  maxMemory : Int
  maxStore : Int
  maxStreams : Int
  maxConsumers : Int
deriving Repr, DecidableEq

/-- Server-wide JetStream ledger (`jetStream` struct): configured limits,
the set of enabled accounts (by account name, with their limits standing in
for the `jsAccount` pointer) and the reservation counters. -/
structure JetStreamState where
  maxMemory : Int
  maxStore : Int
  accounts : List (String × JetStreamAccountLimits)
  memReserved : Int
  storeReserved : Int
deriving Repr, DecidableEq

/-- Transcribes `jetStream.dynamicAccountLimits`. -/
def dynamicAccountLimits (js : JetStreamState) : JetStreamAccountLimits :=
  { maxMemory := js.maxMemory, maxStore := js.maxStore,
    maxStreams := -1, maxConsumers := -1 }

/-- Transcribes `jetStream.sufficientResources`: a `nil` limits pointer is
`none`; the memory check runs before the storage check. -/
def sufficientResources (js : JetStreamState)
    (limits : Option JetStreamAccountLimits) : Except String Unit :=
  match limits with
  | none => .ok ()
  | some l =>
    if js.memReserved + l.maxMemory > js.maxMemory then
      .error "insufficient memory resources available"
    else if js.storeReserved + l.maxStore > js.maxStore then
      .error "insufficient storage resources available"
    else .ok ()

/-- Transcribes `jetStream.reserveResources`: each counter moves only when
the corresponding limit is strictly positive. -/
def reserveResources (js : JetStreamState)
    (limits : Option JetStreamAccountLimits) : JetStreamState :=
  match limits with
  | none => js
  | some l =>
    let js1 := if l.maxMemory > 0 then
      { js with memReserved := js.memReserved + l.maxMemory } else js
    if l.maxStore > 0 then
      { js1 with storeReserved := js1.storeReserved + l.maxStore } else js1

/-- Transcribes `jetStream.releaseResources`. -/
def releaseResources (js : JetStreamState)
    (limits : Option JetStreamAccountLimits) : JetStreamState :=
  match limits with
  | none => js
  | some l =>
    let js1 := if l.maxMemory > 0 then
      { js with memReserved := js.memReserved - l.maxMemory } else js
    if l.maxStore > 0 then
      { js1 with storeReserved := js1.storeReserved - l.maxStore } else js1

/-- Transcribes `jetStream.lookupAccount` (by account name). -/
def lookupAccount (js : JetStreamState) (acc : String) :
    Option JetStreamAccountLimits :=
  js.accounts.lookup acc

/-- Admission phase of `Account.EnableJetStream` (jetstream.go lines
441-473): nil limits become the dynamic limits, `sufficientResources` is
checked, then the already-enabled check, then the account is registered and
its resources reserved.  Every error path returns before any mutation. -/
def accountEnableJetStream (js? : Option JetStreamState) (acc : String)
    (limits0 : Option JetStreamAccountLimits) :
    Option JetStreamState × Except String Unit :=
  match js? with
  | none => (none, .error "jetstream not enabled")
  | some js =>
    let limits := match limits0 with
      | none => dynamicAccountLimits js
      | some l => l
    match sufficientResources js (some limits) with
    | .error e => (some js, .error e)
    | .ok _ =>
      if (lookupAccount js acc).isSome then
        (some js, .error "jetstream already enabled for account")
      else
        (some (reserveResources
          { js with accounts := (acc, limits) :: js.accounts }
          (some limits)), .ok ())

/-- Transcribes `jetStream.disableJetStream`: a nil `jsAccount` yields the
not-enabled error with the ledger untouched; otherwise the account is
deleted from the ledger map and its limits released. -/
def jsDisableJetStream (js : JetStreamState)
    (jsa : Option (String × JetStreamAccountLimits)) :
    JetStreamState × Except String Unit :=
  match jsa with
  | none => (js, .error "jetstream not enabled for account")
  | some (name, limits) =>
    (releaseResources
      { js with accounts := js.accounts.filter (fun p => p.1 ≠ name) }
      (some limits), .ok ())

/-- Transcribes `diffCheckedLimits`: only the memory and store components
are diffed, the stream/consumer counts are left at the Go zero value. -/
def diffCheckedLimits (a b : JetStreamAccountLimits) :
    JetStreamAccountLimits :=
  { maxMemory := b.maxMemory - a.maxMemory,
    maxStore := b.maxStore - a.maxStore,
    maxStreams := 0, maxConsumers := 0 }

/-- Transcribes `Account.UpdateJetStreamLimits` for a registered account:
look up the account, default nil limits to the dynamic ones, check the
delta with `sufficientResources`, then release the old limits, reserve the
new ones and store the new limits on the account. -/
def updateJetStreamLimits (js : JetStreamState) (acc : String)
    (limits0 : Option JetStreamAccountLimits) :
    Except String JetStreamState :=
  match lookupAccount js acc with
  | none => .error "jetstream not enabled for account"
  | some old =>
    let limits := match limits0 with
      | none => dynamicAccountLimits js
      | some l => l
    let dl := diffCheckedLimits old limits
    match sufficientResources js (some dl) with
    | .error e => .error e
    | .ok _ =>
      let js1 := reserveResources (releaseResources js (some old))
        (some limits)
      .ok { js1 with accounts :=
        js1.accounts.map (fun p => if p.1 = acc then (acc, limits) else p) }

/-- Storage class of a stream (`StorageType` in the broker). -/
inductive StorageType where
  | memory
  | file
deriving Repr, DecidableEq

/-- The fields of `StreamConfig` that the embedded operations read or
write. -/
structure StreamConfig where
  name : String
  subjects : List String
  replicas : Int
  maxConsumers : Int
  maxBytes : Int
  storage : StorageType
  template : String
deriving Repr, DecidableEq

/-- Per-account state read by `jsAccount.checkLimits`: the account limits,
the registered stream names and the account-level reservations. -/
structure JsAccountState where
  limits : JetStreamAccountLimits
  streams : List String
  memReserved : Int
  storeReserved : Int
deriving Repr, DecidableEq

/-- Transcribes `jsAccount.checkLimits`.  The Go function mutates
`config.MaxConsumers` through the caller's pointer; the embedding returns
the config as left behind together with the check result. -/
def checkLimits (jsa : JsAccountState) (config : StreamConfig) :
    StreamConfig × Except String Unit :=
  if jsa.limits.maxStreams > 0 ∧
      (jsa.streams.length : Int) ≥ jsa.limits.maxStreams then
    (config, .error "maximum number of streams reached")
  else if config.replicas ≠ 1 then
    (config, .error "replicas setting not allowed")
  else if config.maxConsumers > 0 ∧
      config.maxConsumers > jsa.limits.maxConsumers then
    (config, .error "maximum consumers exceeds account limit")
  else
    let config1 := { config with maxConsumers := jsa.limits.maxConsumers }
    if config1.maxBytes > 0 then
      let mb := config1.maxBytes * config1.replicas
      match config1.storage with
      | .memory =>
        if jsa.memReserved + mb > jsa.limits.maxMemory then
          (config1, .error "insufficient memory resources available")
        else (config1, .ok ())
      | .file =>
        if jsa.storeReserved + mb > jsa.limits.maxStore then
          (config1, .error "insufficient storage resources available")
        else (config1, .ok ())
    else (config1, .ok ())

/-- Transcribes `CanonicalName`, which is
`strings.ReplaceAll(name, ".", "_")`: since the pattern is the single
character `.`, this is the character map sending each `.` to `_`. -/
def CanonicalName (name : String) : String :=
  ⟨name.data.map (fun c => if c = '.' then '_' else c)⟩

/-- A stream template (`StreamTemplate` with its embedded
`StreamTemplateConfig`): name, stream-config prototype, the `uint32`
stream cap and the materialized stream-name list. -/
structure TemplateState where
  name : String
  config : StreamConfig
  maxStreams : Nat
  streams : List String
deriving Repr, DecidableEq

/-- Transcribes `Account.validateStreams`: the template's list is pruned to
the names that `LookupStream` resolves in the account. -/
def validateStreams (live : List String) (t : TemplateState) :
    TemplateState :=
  { t with streams := t.streams.filter (fun s => live.contains s) }

/-- Transcribes `jsAccount.addStreamNameToTemplate` (recovery path): find
the template by name and append the stream name to its list, with no cap
check. -/
def addStreamNameToTemplate (templates : List TemplateState)
    (tname mname : String) : Except String (List TemplateState) :=
  if templates.any (fun t => t.name = tname) then
    .ok (templates.map (fun t =>
      if t.name = tname then { t with streams := t.streams ++ [mname] }
      else t))
  else .error "no template found"

/-- Outcome of one template-dispatcher delivery
(`StreamTemplate.processInboundTemplateMsg`). -/
inductive DispatchOutcome where
  | existing
  | droppedAtLimit
  | created (cfg : StreamConfig)
  | failed
deriving Repr, DecidableEq

/-- Transcribes `StreamTemplate.processInboundTemplateMsg`.  `jsaStreams`
is the account's registered stream-name set; `createOk` stands for the
result of the `acc.AddStream` call (external to this file's sources).  The
function returns the dispatch outcome (carrying the config handed to
`AddStream` when a stream is created) and the updated template. -/
def processInboundTemplateMsg (jsaStreams : List String)
    (t : TemplateState) (subject : String) (createOk : Bool) :
    DispatchOutcome × TemplateState :=
  let cn := CanonicalName subject
  if jsaStreams.contains cn then (.existing, t)
  else
    let cfg := { t.config with template := t.name }
    let atLimit := t.streams.length ≥ t.maxStreams
    if atLimit then (.droppedAtLimit, t)
    else
      let t1 := { t with streams := t.streams ++ [cn] }
      let cfg1 := { cfg with name := cn, subjects := [subject] }
      if createOk then (.created cfg1, t1)
      else (.failed, validateStreams jsaStreams t1)

/-- The two `TemplateStore` implementations (`newTemplateFileStore` /
`newTemplateMemStore`). -/
inductive TemplateStoreKind where
  | file
  | mem
deriving Repr, DecidableEq

/-- Template registry of a `jsAccount`: `templates? = none` models the nil
Go map, and `store?` the lazily created `TemplateStore` handle. -/
structure JsaTemplates where
  templates? : Option (List String)
  store? : Option TemplateStoreKind
deriving Repr, DecidableEq

/-- Registry/store part of `Account.AddStreamTemplate` (jetstream.go lines
1559-1573): when the template map is nil it is created together with the
store, whose kind is chosen by this template's storage class; otherwise a
duplicate name is rejected and the existing store is kept untouched. -/
def addStreamTemplateStore (jsa : JsaTemplates) (tname : String)
    (storage : StorageType) : Except String JsaTemplates :=
  match jsa.templates? with
  | none =>
    let store := if storage = StorageType.file then TemplateStoreKind.file
      else TemplateStoreKind.mem
    .ok { templates? := some [tname], store? := some store }
  | some ts =>
    if ts.contains tname then .error "template with name already exists"
    else .ok { jsa with templates? := some (ts ++ [tname]) }

/-- Transcribes `StreamTemplate.Delete` after the lock shuffling: the
template is removed from the registry, the live streams of its list are
collected, the store delete runs, and then every collected stream is
deleted with the last non-nil error kept.  `streamDelErr n` is the error
of `mset.Delete()` for stream `n` (`none` = success).  Returns the new
registry, the list of streams whose deletion was attempted, and the
overall result. -/
def templateDelete (templates? : Option (List String)) (tname : String)
    (tstreams : List String) (live : List String)
    (hasStore storeDeleteOk : Bool)
    (streamDelErr : String → Option String) :
    Option (List String) × List String × Except String Unit :=
  match templates? with
  | none => (none, [], .error "no template found")
  | some ts =>
    if ¬ ts.contains tname then (some ts, [], .error "no template found")
    else
      let ts1 := ts.filter (fun n => n ≠ tname)
      let streams := tstreams.filter (fun n => live.contains n)
      if hasStore ∧ ¬ storeDeleteOk then
        (some ts1, [], .error "error deleting template from store")
      else
        let lastErr := streams.foldl (fun acc n =>
          match streamDelErr n with
          | some e => some e
          | none => acc) none
        (some ts1, streams,
          match lastErr with
          | some e => .error e
          | none => .ok ())

/-- On-disk state of one persisted entity as recovery sees it:
`metafile?` is the byte content of `meta.inf` (`none` when the file is
missing or unreadable), `metasum?` the string content of `meta.sum`
(`none` when missing), `decodeOk` the success of the JSON unmarshal and
`registerOk` the success of the re-registration call
(`AddStreamTemplate` / `AddStream` / `AddConsumer`). -/
structure MetaEntity where
  metafile? : Option (List Nat)
  metasum? : Option String
  decodeOk : Bool
  registerOk : Bool
deriving Repr, DecidableEq

/-- Template branch of the recovery loop in `Account.EnableJetStream`
(jetstream.go lines 519-553): read `meta.inf`, require `meta.sum` to
exist, read it, compare it against the keyed hash of the `meta.inf`
bytes, unmarshal, re-register.  `hash` is the hex-encoded keyed
highwayhash (the hash itself lives outside these sources).  Returns
whether the entity is recovered; every failing step means the entity is
skipped with a warning. -/
def recoverTemplateEntity (hash : List Nat → String) (e : MetaEntity) :
    Bool :=
  match e.metafile? with
  | none => false
  | some buf =>
    match e.metasum? with
    | none => false
    | some sum =>
      if hash buf ≠ sum then false
      else if ¬ e.decodeOk then false
      else e.registerOk

/-- Stream branch of the recovery loop (jetstream.go lines 557-605): same
checksum comparison as the template branch, keyed on the stream's `msgs`
directory. -/
def recoverStreamEntity (hash : List Nat → String) (e : MetaEntity) :
    Bool :=
  match e.metafile? with
  | none => false
  | some buf =>
    match e.metasum? with
    | none => false
    | some sum =>
      if hash buf ≠ sum then false
      else if ¬ e.decodeOk then false
      else e.registerOk

/-- Consumer branch of the recovery loop (jetstream.go lines 616-645): the
code stats `meta.sum` for existence but never reads it and never computes
the keyed hash, so the entity is recovered whenever both files exist, the
JSON decodes and `AddConsumer` succeeds. -/
def recoverConsumerEntity (_hash : List Nat → String) (e : MetaEntity) :
    Bool :=
  match e.metafile? with
  | none => false
  | some _ =>
    match e.metasum? with
    | none => false
    | some _ =>
      if ¬ e.decodeOk then false
      else e.registerOk

/-- The template scan: each directory entry is decided independently and a
skipped entity makes the loop `continue` with the rest. -/
def recoverTemplates (hash : List Nat → String) :
    List MetaEntity → List MetaEntity
  | [] => []
  | e :: rest =>
    if recoverTemplateEntity hash e then e :: recoverTemplates hash rest
    else recoverTemplates hash rest

/-- The stream scan, same loop shape as the template scan. -/
def recoverStreams (hash : List Nat → String) :
    List MetaEntity → List MetaEntity
  | [] => []
  | e :: rest =>
    if recoverStreamEntity hash e then e :: recoverStreams hash rest
    else recoverStreams hash rest

/-- The consumer scan inside one recovered stream. -/
def recoverConsumers (hash : List Nat → String) :
    List MetaEntity → List MetaEntity
  | [] => []
  | e :: rest =>
    if recoverConsumerEntity hash e then e :: recoverConsumers hash rest
    else recoverConsumers hash rest

/-- The subjects of `allJsExports` in jetstream.go. -/
def allJsExports : List String :=
  ["$JS.ENABLED", "$JS.INFO",
   "$JS.TEMPLATE.*.CREATE", "$JS.TEMPLATES.LIST", "$JS.TEMPLATE.*.INFO",
   "$JS.TEMPLATE.*.DELETE",
   "$JS.STREAM.*.CREATE", "$JS.STREAM.LIST", "$JS.STREAM.*.INFO",
   "$JS.STREAM.*.DELETE", "$JS.STREAM.*.PURGE", "$JS.STREAM.*.MSG.DELETE",
   "$JS.STREAM.*.CONSUMER.*.CREATE",
   "$JS.STREAM.*.EPHEMERAL.CONSUMER.CREATE",
   "$JS.STREAM.*.CONSUMERS", "$JS.STREAM.*.CONSUMER.*.INFO",
   "$JS.STREAM.*.CONSUMER.*.DELETE"]

/-- The broker-side view of one account that `Account.DisableJetStream`
touches: whether `a.srv` is set, the `a.js` pointer and the account's
service import list. -/
structure AccountView where
  name : String
  registered : Bool
  jsPtr : Bool
  svcImports : List String
deriving Repr, DecidableEq

/-- Transcribes `Account.DisableJetStream`: the `a.js` pointer is cleared
first, then the registration and server checks run, then every JetStream
export subject is removed from the account, and only then does
`jetStream.disableJetStream` look the account up and fail when it was
never enabled.  Returns the account as left behind and the result. -/
def accountDisableJetStream (a : AccountView)
    (js? : Option JetStreamState) :
    AccountView × Option JetStreamState × Except String Unit :=
  let a1 := { a with jsPtr := false }
  if ¬ a.registered then
    (a1, js?, .error "jetstream account not registered")
  else
    match js? with
    | none => (a1, none, .error "jetstream not enabled")
    | some js =>
      let rest := a1.svcImports.filter (fun s => ¬ allJsExports.contains s)
      let a2 := { a1 with svcImports := rest }
      let r := jsDisableJetStream js
        ((lookupAccount js a.name).map (fun l => (a.name, l)))
      (a2, some r.1, r.2)

/-- Claim C9: `reserveResources` and `releaseResources` change `memReserved`
only when the limits' MaxMemory is strictly positive and `storeReserved`
only when MaxStore is strictly positive; consequently enabling and later
disabling an account whose memory and store limits are both non-positive
leaves the server's reservation counters exactly unchanged. -/
theorem reserveRelease_nonpositive_frame (js : JetStreamState)
    (acc : String) (l : JetStreamAccountLimits)
    (hm : l.maxMemory ≤ 0) (hs : l.maxStore ≤ 0) :
    reserveResources js (some l) = js ∧
    releaseResources js (some l) = js ∧
    ∀ js1, accountEnableJetStream (some js) acc (some l) =
        (some js1, .ok ()) →
      (jsDisableJetStream js1
        ((lookupAccount js1 acc).map (fun v => (acc, v)))).1.memReserved
          = js.memReserved ∧
      (jsDisableJetStream js1
        ((lookupAccount js1 acc).map (fun v => (acc, v)))).1.storeReserved
          = js.storeReserved := by
  have hm' : ¬ l.maxMemory > 0 := not_lt.mpr hm
  have hs' : ¬ l.maxStore > 0 := not_lt.mpr hs
  have hres : ∀ j : JetStreamState, reserveResources j (some l) = j := by
    intro j
    simp [reserveResources, hm', hs']
  have hrel : ∀ j : JetStreamState, releaseResources j (some l) = j := by
    intro j
    simp [releaseResources, hm', hs']
  refine ⟨hres js, hrel js, ?_⟩
  intro js1 h
  simp only [accountEnableJetStream] at h
  cases hsr : sufficientResources js (some l) with
  | error e => rw [hsr] at h; simp at h
  | ok _ =>
    rw [hsr] at h
    by_cases hlk : (lookupAccount js acc).isSome
    · simp [hlk] at h
    · rw [if_neg hlk] at h
      rw [Prod.mk.injEq] at h
      have hjs1 : js1 = reserveResources
          { js with accounts := (acc, l) :: js.accounts } (some l) :=
        (Option.some.inj h.1).symm
      rw [hres] at hjs1
      subst hjs1
      have hlook : lookupAccount
          { js with accounts := (acc, l) :: js.accounts } acc = some l := by
        simp [lookupAccount, List.lookup]
      rw [hlook]
      simp only [Option.map_some']
      simp [jsDisableJetStream, hrel]

/-- Claim C9 witness: a server with reservations 7 and 9 enables account "A"
with memory and store limits both -1 (unlimited) and disables it again;
both counters are exactly unchanged. -/
theorem reserveRelease_nonpositive_frame_witness :
    (jsDisableJetStream
      ⟨100, 1000, [("A", ⟨-1, -1, -1, -1⟩)], 7, 9⟩
      ((lookupAccount ⟨100, 1000, [("A", ⟨-1, -1, -1, -1⟩)], 7, 9⟩
        "A").map (fun v => ("A", v)))).1.memReserved = 7 ∧
    (jsDisableJetStream
      ⟨100, 1000, [("A", ⟨-1, -1, -1, -1⟩)], 7, 9⟩
      ((lookupAccount ⟨100, 1000, [("A", ⟨-1, -1, -1, -1⟩)], 7, 9⟩
        "A").map (fun v => ("A", v)))).1.storeReserved = 9 :=
  (reserveRelease_nonpositive_frame ⟨100, 1000, [], 7, 9⟩ "A"
      ⟨-1, -1, -1, -1⟩ (by decide) (by decide)).2.2
    ⟨100, 1000, [("A", ⟨-1, -1, -1, -1⟩)], 7, 9⟩ rfl

/-- Claim C2, counterexample: with the account's maxConsumers limit at -1
(unlimited) and a stream config asking for one consumer, `checkLimits`
rejects the stream with the maximum-consumers error, contradicting the
claim that no stream is rejected on consumer count under an unlimited
account. -/
theorem checkLimits_unlimited_account_rejects :
    checkLimits ⟨⟨-1, -1, -1, -1⟩, [], 0, 0⟩
      ⟨"S", ["s"], 1, 1, 0, StorageType.memory, ""⟩ =
    (⟨"S", ["s"], 1, 1, 0, StorageType.memory, ""⟩,
     .error "maximum consumers exceeds account limit") := rfl

/-- Claim C2, amended: past the stream-count and replica checks, `checkLimits`
rejects exactly when the config's maxConsumers is positive and exceeds the
account's maxConsumers numerically — including when the account limit is
-1, since any positive request exceeds -1 — and otherwise overwrites the
config's maxConsumers with the account limit. -/
theorem checkLimits_consumer_check (jsa : JsAccountState)
    (config : StreamConfig)
    (hstreams : ¬ (jsa.limits.maxStreams > 0 ∧
      (jsa.streams.length : Int) ≥ jsa.limits.maxStreams))
    (hrep : config.replicas = 1) :
    (config.maxConsumers > 0 ∧
        config.maxConsumers > jsa.limits.maxConsumers →
      checkLimits jsa config =
        (config, .error "maximum consumers exceeds account limit")) ∧
    (¬ (config.maxConsumers > 0 ∧
        config.maxConsumers > jsa.limits.maxConsumers) →
      (checkLimits jsa config).1.maxConsumers = jsa.limits.maxConsumers) ∧
    (jsa.limits.maxConsumers = -1 → 0 < config.maxConsumers →
      checkLimits jsa config =
        (config, .error "maximum consumers exceeds account limit")) := by
  have hrep' : ¬ config.replicas ≠ 1 := by simp [hrep]
  refine ⟨?_, ?_, ?_⟩
  · intro h
    rw [checkLimits, if_neg hstreams, if_neg hrep', if_pos h]
  · intro h
    rw [checkLimits, if_neg hstreams, if_neg hrep', if_neg h]
    dsimp only
    split
    · split
      · split <;> rfl
      · split <;> rfl
    · rfl
  · intro hc hpos
    rw [checkLimits, if_neg hstreams, if_neg hrep']
    rw [if_pos ⟨hpos, by rw [hc]; exact lt_trans (by decide) hpos⟩]

/-- Claim C2 witness for the amended theorem: an account limit of 10 with a
config asking for 3 consumers passes the check and the config's
maxConsumers is overwritten with 10. -/
theorem checkLimits_consumer_check_witness :
    (checkLimits ⟨⟨-1, -1, -1, 10⟩, [], 0, 0⟩
      ⟨"S", ["s"], 1, 3, 0, StorageType.memory, ""⟩).1.maxConsumers = 10 :=
  (checkLimits_consumer_check ⟨⟨-1, -1, -1, 10⟩, [], 0, 0⟩
    ⟨"S", ["s"], 1, 3, 0, StorageType.memory, ""⟩
    (by decide) (by decide)).2.1 (by decide)

/-- Helper: looking up `acc` after replacing every `acc` entry's value
with `v` yields `v`, provided `acc` was present. -/
theorem lookup_replace_value {β : Type} (l : List (String × β))
    (acc : String) (v : β) (h : (l.lookup acc).isSome) :
    (l.map (fun p => if p.1 = acc then (acc, v) else p)).lookup acc
      = some v := by
  induction l with
  | nil => simp [List.lookup] at h
  | cons p rest ih =>
    obtain ⟨k, w⟩ := p
    by_cases hk : k = acc
    · subst hk
      simp only [List.map_cons, if_true]
      simp [List.lookup]
    · have hne : (acc == k) = false := by
        simp [beq_iff_eq]
        exact fun he => hk he.symm
      simp only [List.lookup, hne] at h
      simp only [List.map_cons, if_neg hk]
      simp only [List.lookup, hne]
      exact ih h

/-- Claim C4: `UpdateJetStreamLimits` on an enabled account diffs only the
memory and store components; it rejects with the respective insufficient
error when the delta does not fit the remaining budget, and otherwise
releases the old reservation, takes the new one (each component moving
only when the corresponding limit is positive) and replaces the account's
stored limits. -/
theorem updateJetStreamLimits_spec (js : JetStreamState) (acc : String)
    (old nw : JetStreamAccountLimits)
    (hlk : lookupAccount js acc = some old) :
    (js.memReserved + (nw.maxMemory - old.maxMemory) > js.maxMemory →
      updateJetStreamLimits js acc (some nw) =
        .error "insufficient memory resources available") ∧
    (js.memReserved + (nw.maxMemory - old.maxMemory) ≤ js.maxMemory →
     js.storeReserved + (nw.maxStore - old.maxStore) > js.maxStore →
      updateJetStreamLimits js acc (some nw) =
        .error "insufficient storage resources available") ∧
    (js.memReserved + (nw.maxMemory - old.maxMemory) ≤ js.maxMemory →
     js.storeReserved + (nw.maxStore - old.maxStore) ≤ js.maxStore →
      (updateJetStreamLimits js acc (some nw)).map
        (fun s => (s.memReserved, s.storeReserved, lookupAccount s acc)) =
      .ok (js.memReserved -
             (if 0 < old.maxMemory then old.maxMemory else 0) +
             (if 0 < nw.maxMemory then nw.maxMemory else 0),
           js.storeReserved -
             (if 0 < old.maxStore then old.maxStore else 0) +
             (if 0 < nw.maxStore then nw.maxStore else 0),
           some nw)) := by
  refine ⟨?_, ?_, ?_⟩
  · intro h1
    rw [updateJetStreamLimits, hlk]
    simp only [sufficientResources, diffCheckedLimits]
    rw [if_pos h1]
  · intro h1 h2
    rw [updateJetStreamLimits, hlk]
    simp only [sufficientResources, diffCheckedLimits]
    rw [if_neg (not_lt.mpr h1), if_pos h2]
  · intro h1 h2
    rw [updateJetStreamLimits, hlk]
    simp only [sufficientResources, diffCheckedLimits]
    rw [if_neg (not_lt.mpr h1), if_neg (not_lt.mpr h2)]
    have hsome : ((js.accounts.map
        (fun p => if p.1 = acc then (acc, nw) else p)).lookup acc)
          = some nw := by
      apply lookup_replace_value
      rw [show js.accounts.lookup acc = lookupAccount js acc from rfl, hlk]
      rfl
    by_cases hom : 0 < old.maxMemory <;> by_cases hos : 0 < old.maxStore <;>
      by_cases hnm : 0 < nw.maxMemory <;> by_cases hns : 0 < nw.maxStore <;>
      simp [releaseResources, reserveResources, lookupAccount, Except.map,
        hom, hos, hnm, hns, hsome]

/-- Claim C4 witness, the spec's update-limits scenario: account "A" holds
maxMemory 40 with server memReserved 40; updating to maxMemory 30
succeeds, leaves memReserved at 30 and stores the new limits. -/
theorem updateJetStreamLimits_spec_witness :
    (updateJetStreamLimits ⟨100, 1000, [("A", ⟨40, 0, -1, -1⟩)], 40, 0⟩
      "A" (some ⟨30, 0, -1, -1⟩)).map
      (fun s => (s.memReserved, s.storeReserved, lookupAccount s "A")) =
    .ok (30, 0, some ⟨30, 0, -1, -1⟩) :=
  (updateJetStreamLimits_spec ⟨100, 1000, [("A", ⟨40, 0, -1, -1⟩)], 40, 0⟩
    "A" ⟨40, 0, -1, -1⟩ ⟨30, 0, -1, -1⟩ rfl).2.2 (by decide) (by decide)

/-- Claim C6: account-level enable fails with the not-enabled error when the
server has no JetStream; with JetStream on, it fails with the respective
insufficient-resource error when the reservation does not fit (memory
checked first), fails with the already-enabled error when the account is
registered, and otherwise succeeds, registering the account and reserving
its limits; every failure leaves the ledger unchanged, and nil limits are
replaced by the dynamic account limits. -/
theorem accountEnableJetStream_spec (js : JetStreamState) (acc : String)
    (l : JetStreamAccountLimits) :
    (accountEnableJetStream none acc (some l) =
      (none, .error "jetstream not enabled")) ∧
    (js.memReserved + l.maxMemory > js.maxMemory →
      accountEnableJetStream (some js) acc (some l) =
        (some js, .error "insufficient memory resources available")) ∧
    (js.memReserved + l.maxMemory ≤ js.maxMemory →
     js.storeReserved + l.maxStore > js.maxStore →
      accountEnableJetStream (some js) acc (some l) =
        (some js, .error "insufficient storage resources available")) ∧
    (js.memReserved + l.maxMemory ≤ js.maxMemory →
     js.storeReserved + l.maxStore ≤ js.maxStore →
     (lookupAccount js acc).isSome →
      accountEnableJetStream (some js) acc (some l) =
        (some js, .error "jetstream already enabled for account")) ∧
    (js.memReserved + l.maxMemory ≤ js.maxMemory →
     js.storeReserved + l.maxStore ≤ js.maxStore →
     lookupAccount js acc = none →
      (accountEnableJetStream (some js) acc (some l)).2 = .ok () ∧
      (accountEnableJetStream (some js) acc (some l)).1.map
        (fun s => (lookupAccount s acc, s.memReserved, s.storeReserved)) =
      some (some l,
        js.memReserved + (if 0 < l.maxMemory then l.maxMemory else 0),
        js.storeReserved + (if 0 < l.maxStore then l.maxStore else 0))) ∧
    (accountEnableJetStream (some js) acc none =
      accountEnableJetStream (some js) acc
        (some (dynamicAccountLimits js))) := by
  refine ⟨rfl, ?_, ?_, ?_, ?_, rfl⟩
  · intro h1
    simp only [accountEnableJetStream, sufficientResources]
    rw [if_pos h1]
  · intro h1 h2
    simp only [accountEnableJetStream, sufficientResources]
    rw [if_neg (not_lt.mpr h1), if_pos h2]
  · intro h1 h2 h3
    simp only [accountEnableJetStream, sufficientResources]
    rw [if_neg (not_lt.mpr h1), if_neg (not_lt.mpr h2)]
    dsimp only
    rw [if_pos h3]
  · intro h1 h2 h3
    simp only [accountEnableJetStream, sufficientResources]
    rw [if_neg (not_lt.mpr h1), if_neg (not_lt.mpr h2)]
    dsimp only
    rw [if_neg (by simp [h3])]
    by_cases hm : 0 < l.maxMemory <;> by_cases hs : 0 < l.maxStore <;>
      simp [reserveResources, hm, hs, lookupAccount, List.lookup]

/-- Claim C6 witness, the spec's admission scenario: server maxMemory 100;
enabling account "A" with maxMemory 60 succeeds and reserves 60, then
enabling account "B" with maxMemory 50 fails with the insufficient-memory
error and leaves the ledger unchanged. -/
theorem accountEnableJetStream_spec_witness :
    (accountEnableJetStream (some ⟨100, 1000, [], 0, 0⟩) "A"
      (some ⟨60, 0, -1, -1⟩)).1.map
      (fun s => (lookupAccount s "A", s.memReserved, s.storeReserved)) =
      some (some ⟨60, 0, -1, -1⟩, 60, 0) ∧
    accountEnableJetStream
      (some ⟨100, 1000, [("A", ⟨60, 0, -1, -1⟩)], 60, 0⟩)
      "B" (some ⟨50, 0, -1, -1⟩) =
      (some ⟨100, 1000, [("A", ⟨60, 0, -1, -1⟩)], 60, 0⟩,
       .error "insufficient memory resources available") := by
  constructor
  · have h := (accountEnableJetStream_spec ⟨100, 1000, [], 0, 0⟩ "A"
      ⟨60, 0, -1, -1⟩).2.2.2.2.1 (by decide) (by decide) rfl
    simpa using h.2
  · exact (accountEnableJetStream_spec
      ⟨100, 1000, [("A", ⟨60, 0, -1, -1⟩)], 60, 0⟩ "B"
      ⟨50, 0, -1, -1⟩).2.1 (by decide)

/-- Claim C10: `Account.DisableJetStream` on a registered account that was never
JetStream-enabled (server JetStream on) returns the error "jetstream not
enabled for account", yet the account's JetStream pointer has been cleared
and its JetStream service import entries removed; the ledger is untouched. -/
theorem accountDisableJetStream_not_enabled (a : AccountView)
    (js : JetStreamState) (hreg : a.registered = true)
    (hnot : lookupAccount js a.name = none) :
    (accountDisableJetStream a (some js)).2.2 =
        .error "jetstream not enabled for account" ∧
    (accountDisableJetStream a (some js)).1.jsPtr = false ∧
    (accountDisableJetStream a (some js)).1.svcImports =
      a.svcImports.filter (fun s => ¬ allJsExports.contains s) ∧
    (accountDisableJetStream a (some js)).2.1 = some js := by
  simp only [accountDisableJetStream]
  rw [if_neg (by simp [hreg])]
  dsimp only
  rw [hnot]
  simp [jsDisableJetStream]

/-- Claim C10 witness: account "A" with one JetStream import and one foreign
import, never enabled on a live ledger; disable errors but the pointer is
cleared, the JetStream import is gone and the foreign import kept. -/
theorem accountDisableJetStream_not_enabled_witness :
    (accountDisableJetStream ⟨"A", true, true, ["$JS.ENABLED", "x"]⟩
        (some ⟨100, 1000, [], 0, 0⟩)).2.2 =
      .error "jetstream not enabled for account" ∧
    (accountDisableJetStream ⟨"A", true, true, ["$JS.ENABLED", "x"]⟩
        (some ⟨100, 1000, [], 0, 0⟩)).1.jsPtr = false ∧
    (accountDisableJetStream ⟨"A", true, true, ["$JS.ENABLED", "x"]⟩
        (some ⟨100, 1000, [], 0, 0⟩)).1.svcImports = ["x"] := by
  have h := accountDisableJetStream_not_enabled
    ⟨"A", true, true, ["$JS.ENABLED", "x"]⟩ ⟨100, 1000, [], 0, 0⟩ rfl rfl
  exact ⟨h.1, h.2.1, by rw [h.2.2.1]; rfl⟩


/-- Helper: exhaustive case analysis of one template-dispatcher delivery,
shared by the dispatcher and invariant developments. -/
theorem dispatchMsg_cases (jsaStreams : List String) (t : TemplateState)
    (subject : String) (createOk : Bool) :
    (jsaStreams.contains (CanonicalName subject) = true →
      processInboundTemplateMsg jsaStreams t subject createOk =
        (.existing, t)) ∧
    (jsaStreams.contains (CanonicalName subject) = false →
      t.streams.length ≥ t.maxStreams →
      processInboundTemplateMsg jsaStreams t subject createOk =
        (.droppedAtLimit, t)) ∧
    (jsaStreams.contains (CanonicalName subject) = false →
      t.streams.length < t.maxStreams →
      processInboundTemplateMsg jsaStreams t subject true =
        (.created { t.config with
            name := CanonicalName subject
            subjects := [subject]
            template := t.name },
         { t with streams := t.streams ++ [CanonicalName subject] })) ∧
    (jsaStreams.contains (CanonicalName subject) = false →
      t.streams.length < t.maxStreams →
      processInboundTemplateMsg jsaStreams t subject false =
        (.failed, validateStreams jsaStreams
          { t with streams := t.streams ++ [CanonicalName subject] })) := by
  refine ⟨?_, ?_, ?_, ?_⟩
  · intro h1
    have h1m : CanonicalName subject ∈ jsaStreams := by simpa using h1
    simp [processInboundTemplateMsg, h1m]
  · intro h1 h2
    have h1m : CanonicalName subject ∉ jsaStreams := by simpa using h1
    simp [processInboundTemplateMsg, h1m, h2]
  · intro h1 h2
    have h1m : CanonicalName subject ∉ jsaStreams := by simpa using h1
    simp [processInboundTemplateMsg, h1m, Nat.not_le.mpr h2]
  · intro h1 h2
    have h1m : CanonicalName subject ∉ jsaStreams := by simpa using h1
    simp [processInboundTemplateMsg, h1m, Nat.not_le.mpr h2]

/-- Claim C5: the dispatcher canonicalizes the subject (every `.` becomes `_`),
returns untouched when a stream of that name is registered, log-warns and
drops the message at the template cap, and otherwise appends the candidate
name and creates a stream whose config carries the canonical name, the
single original subject and the template's name; on creation failure the
template list is pruned by `validateStreams` to the live streams. -/
theorem processInboundTemplateMsg_spec (jsaStreams : List String)
    (t : TemplateState) (subject : String) (createOk : Bool) :
    (jsaStreams.contains (CanonicalName subject) = true →
      processInboundTemplateMsg jsaStreams t subject createOk =
        (.existing, t)) ∧
    (jsaStreams.contains (CanonicalName subject) = false →
      t.streams.length ≥ t.maxStreams →
      processInboundTemplateMsg jsaStreams t subject createOk =
        (.droppedAtLimit, t)) ∧
    (jsaStreams.contains (CanonicalName subject) = false →
      t.streams.length < t.maxStreams →
      processInboundTemplateMsg jsaStreams t subject true =
        (.created { t.config with
            name := CanonicalName subject
            subjects := [subject]
            template := t.name },
         { t with streams := t.streams ++ [CanonicalName subject] })) ∧
    (jsaStreams.contains (CanonicalName subject) = false →
      t.streams.length < t.maxStreams →
      processInboundTemplateMsg jsaStreams t subject false =
        (.failed, validateStreams jsaStreams
          { t with streams := t.streams ++ [CanonicalName subject] })) :=
  dispatchMsg_cases jsaStreams t subject createOk

/-- Claim C5 witness, one delivery of the spec's materialization scenario: a
message on "stock.AAPL" under an empty cap-2 template "T" creates stream
"stock_AAPL" with subjects ["stock.AAPL"] and template "T". -/
theorem processInboundTemplateMsg_spec_witness :
    processInboundTemplateMsg []
      ⟨"T", ⟨"_", ["stock.*"], 1, -1, 0, StorageType.memory, ""⟩, 2, []⟩
      "stock.AAPL" true =
    (.created ⟨"stock_AAPL", ["stock.AAPL"], 1, -1, 0,
        StorageType.memory, "T"⟩,
     ⟨"T", ⟨"_", ["stock.*"], 1, -1, 0, StorageType.memory, ""⟩, 2,
       ["stock_AAPL"]⟩) := by
  have h := (processInboundTemplateMsg_spec []
    ⟨"T", ⟨"_", ["stock.*"], 1, -1, 0, StorageType.memory, ""⟩, 2, []⟩
    "stock.AAPL" true).2.2.1 rfl (by decide)
  simpa using h

/-- Claim C3, counterexample: a template created with maxStreams 0 starts with an
empty list, yet a single recovery-path `addStreamNameToTemplate` call
pushes the list to length 1, breaking length ≤ maxStreams at a state
reachable by the claim's own operation set. -/
theorem addStreamNameToTemplate_cap_violation :
    addStreamNameToTemplate
      [⟨"T", ⟨"", [], 1, 0, 0, StorageType.memory, ""⟩, 0, []⟩] "T" "S" =
      .ok [⟨"T", ⟨"", [], 1, 0, 0, StorageType.memory, ""⟩, 0, ["S"]⟩] ∧
    ¬ ((⟨"T", ⟨"", [], 1, 0, 0, StorageType.memory, ""⟩, 0, ["S"]⟩ :
        TemplateState).streams.length ≤
      (⟨"T", ⟨"", [], 1, 0, 0, StorageType.memory, ""⟩, 0, ["S"]⟩ :
        TemplateState).maxStreams) :=
  ⟨rfl, by decide⟩

/-- Claim C3, amended: the bound length ≤ maxStreams holds at template creation
(empty list) and is preserved by every dispatcher delivery and by
`validateStreams` (stream deletion never touches a template's list), but
recovery's `addStreamNameToTemplate` appends with no cap check and can
break it. -/
theorem template_cap_preserved (live : List String) (t : TemplateState)
    (subject : String) (createOk : Bool) (n : String)
    (cfg : StreamConfig) (ms : Nat)
    (hinv : t.streams.length ≤ t.maxStreams) :
    (⟨n, cfg, ms, []⟩ : TemplateState).streams.length ≤
      (⟨n, cfg, ms, []⟩ : TemplateState).maxStreams ∧
    (processInboundTemplateMsg live t subject createOk).2.streams.length ≤
      (processInboundTemplateMsg live t subject createOk).2.maxStreams ∧
    (validateStreams live t).streams.length ≤
      (validateStreams live t).maxStreams := by
  have hval : ∀ t1 : TemplateState,
      (validateStreams live t1).streams.length ≤ t1.streams.length :=
    fun t1 => List.length_filter_le _ _
  refine ⟨Nat.zero_le ms, ?_, le_trans (hval t) hinv⟩
  have hc := dispatchMsg_cases live t subject createOk
  cases h1 : live.contains (CanonicalName subject) with
  | true => rw [hc.1 h1]; exact hinv
  | false =>
    by_cases h2 : t.streams.length ≥ t.maxStreams
    · rw [hc.2.1 h1 h2]
      exact hinv
    · have hlt : t.streams.length < t.maxStreams := Nat.not_le.mp h2
      cases createOk
      · rw [(dispatchMsg_cases live t subject false).2.2.2 h1 hlt]
        refine le_trans (hval _) ?_
        simpa [List.length_append] using hlt
      · rw [(dispatchMsg_cases live t subject true).2.2.1 h1 hlt]
        simpa [List.length_append] using hlt

/-- Claim C3 witness for the amended theorem: a cap-1 template holding one
stream keeps the bound across a dropped-at-limit delivery and across
`validateStreams` pruning against an empty account. -/
theorem template_cap_preserved_witness :
    (processInboundTemplateMsg []
      ⟨"T", ⟨"", [], 1, 0, 0, StorageType.memory, ""⟩, 1, ["A"]⟩
      "b" true).2.streams.length ≤
      (processInboundTemplateMsg []
        ⟨"T", ⟨"", [], 1, 0, 0, StorageType.memory, ""⟩, 1, ["A"]⟩
        "b" true).2.maxStreams ∧
    (validateStreams []
      ⟨"T", ⟨"", [], 1, 0, 0, StorageType.memory, ""⟩, 1,
        ["A"]⟩).streams.length ≤
      (validateStreams []
        ⟨"T", ⟨"", [], 1, 0, 0, StorageType.memory, ""⟩, 1,
          ["A"]⟩).maxStreams := by
  have h := template_cap_preserved []
    ⟨"T", ⟨"", [], 1, 0, 0, StorageType.memory, ""⟩, 1, ["A"]⟩
    "b" true "T" ⟨"", [], 1, 0, 0, StorageType.memory, ""⟩ 1
    (by decide)
  exact ⟨h.2.1, h.2.2⟩

/-- Helper: the template scan distributes over list append — each entity
is decided independently of the rest. -/
theorem recoverTemplates_append (hash : List Nat → String)
    (l1 l2 : List MetaEntity) :
    recoverTemplates hash (l1 ++ l2) =
      recoverTemplates hash l1 ++ recoverTemplates hash l2 := by
  induction l1 with
  | nil => rfl
  | cons e rest ih =>
    by_cases h : recoverTemplateEntity hash e = true
    · simp [recoverTemplates, h, ih]
    · simp [recoverTemplates, h, ih]

/-- Helper: the stream scan distributes over list append. -/
theorem recoverStreams_append (hash : List Nat → String)
    (l1 l2 : List MetaEntity) :
    recoverStreams hash (l1 ++ l2) =
      recoverStreams hash l1 ++ recoverStreams hash l2 := by
  induction l1 with
  | nil => rfl
  | cons e rest ih =>
    by_cases h : recoverStreamEntity hash e = true
    · simp [recoverStreams, h, ih]
    · simp [recoverStreams, h, ih]

/-- Claim C1, counterexample: an entity whose `meta.inf` was flipped from the
byte `[0]` (whose stored sum is "A") to `[1]` (hashing to "B") is skipped
by template recovery but still accepted by consumer recovery, because the
consumer path never compares the checksum. -/
theorem consumer_recovery_ignores_checksum :
    (fun b : List Nat => if b = [0] then "A" else "B") [1] ≠ "A" ∧
    recoverConsumerEntity (fun b : List Nat => if b = [0] then "A" else "B")
      ⟨some [1], some "A", true, true⟩ = true ∧
    recoverTemplateEntity (fun b : List Nat => if b = [0] then "A" else "B")
      ⟨some [1], some "A", true, true⟩ = false :=
  ⟨by decide, rfl, rfl⟩

/-- Claim C1, amended: during recovery a template or stream entity whose keyed
hash of `meta.inf` differs from the contents of `meta.sum` is skipped and
the scan continues with the remaining entities; the consumer branch only
requires both files to exist and the JSON to decode — it accepts the
entity whatever the checksum says. -/
theorem recovery_checksum_mismatch_skips (hash : List Nat → String)
    (buf : List Nat) (sum : String) (d r : Bool)
    (pre post : List MetaEntity) (hmis : hash buf ≠ sum) :
    recoverTemplateEntity hash ⟨some buf, some sum, d, r⟩ = false ∧
    recoverStreamEntity hash ⟨some buf, some sum, d, r⟩ = false ∧
    recoverTemplates hash (pre ++ ⟨some buf, some sum, d, r⟩ :: post) =
      recoverTemplates hash pre ++ recoverTemplates hash post ∧
    recoverStreams hash (pre ++ ⟨some buf, some sum, d, r⟩ :: post) =
      recoverStreams hash pre ++ recoverStreams hash post ∧
    recoverConsumerEntity hash ⟨some buf, some sum, d, r⟩ = (d && r) := by
  have ht : recoverTemplateEntity hash ⟨some buf, some sum, d, r⟩
      = false := by
    simp [recoverTemplateEntity, hmis]
  have hs : recoverStreamEntity hash ⟨some buf, some sum, d, r⟩
      = false := by
    simp [recoverStreamEntity, hmis]
  refine ⟨ht, hs, ?_, ?_, ?_⟩
  · rw [recoverTemplates_append]
    simp [recoverTemplates, ht]
  · rw [recoverStreams_append]
    simp [recoverStreams, hs]
  · cases d <;> cases r <;> rfl

/-- Claim C1 witness: with hash constantly "H", a good entity (sum "H") followed
by a corrupted one (sum "X") recovers only the good one as a template,
while the corrupted one is still accepted as a consumer. -/
theorem recovery_checksum_mismatch_skips_witness :
    recoverTemplates (fun _ => "H")
      [⟨some [0], some "H", true, true⟩, ⟨some [0], some "X", true, true⟩]
      = [⟨some [0], some "H", true, true⟩] ∧
    recoverConsumerEntity (fun _ => "H")
      ⟨some [0], some "X", true, true⟩ = true := by
  have h := recovery_checksum_mismatch_skips (fun _ => "H") [0] "X"
    true true [⟨some [0], some "H", true, true⟩] [] (by decide)
  exact ⟨h.2.2.1, h.2.2.2.2⟩

/-- Claim C7, counterexample: the first template of an account uses memory
storage, so the account's store handle is memory-backed; a second template
with file storage is then inserted successfully but the handle — through
which `jsa.store.Store(t)` persists it — is still the memory-backed one,
not file-backed. -/
theorem templateStore_chosen_at_first_insert_only :
    addStreamTemplateStore ⟨none, none⟩ "T1" StorageType.memory =
      .ok ⟨some ["T1"], some TemplateStoreKind.mem⟩ ∧
    addStreamTemplateStore ⟨some ["T1"], some TemplateStoreKind.mem⟩
      "T2" StorageType.file =
      .ok ⟨some ["T1", "T2"], some TemplateStoreKind.mem⟩ :=
  ⟨rfl, rfl⟩

/-- Claim C7, amended: the store handle is created lazily at the account's first
template insertion and is file-backed iff that first template's storage
class is file; every later insertion persists through the already-created
handle, whatever its own storage class. -/
theorem addStreamTemplateStore_spec (jsa : JsaTemplates) (tname : String)
    (st : StorageType) :
    (jsa.templates? = none →
      addStreamTemplateStore jsa tname st =
        .ok ⟨some [tname],
          some (if st = StorageType.file then TemplateStoreKind.file
            else TemplateStoreKind.mem)⟩) ∧
    (∀ ts, jsa.templates? = some ts → ts.contains tname = false →
      addStreamTemplateStore jsa tname st =
        .ok { jsa with templates? := some (ts ++ [tname]) }) ∧
    (∀ ts, jsa.templates? = some ts → ts.contains tname = true →
      addStreamTemplateStore jsa tname st =
        .error "template with name already exists") := by
  refine ⟨?_, ?_, ?_⟩
  · intro h
    simp only [addStreamTemplateStore, h]
  · intro ts h hc
    simp only [addStreamTemplateStore, h]
    rw [if_neg (by simpa using hc)]
  · intro ts h hc
    simp only [addStreamTemplateStore, h]
    rw [if_pos hc]

/-- Claim C7 witness: a fresh account inserting a file-storage template gets the
file-backed store; an account that already holds the memory-backed store
keeps it across a successful second insertion. -/
theorem addStreamTemplateStore_spec_witness :
    addStreamTemplateStore ⟨none, none⟩ "T" StorageType.file =
      .ok ⟨some ["T"], some TemplateStoreKind.file⟩ ∧
    addStreamTemplateStore ⟨some ["T"], some TemplateStoreKind.mem⟩
      "U" StorageType.file =
      .ok ⟨some ["T", "U"], some TemplateStoreKind.mem⟩ := by
  constructor
  · have h := (addStreamTemplateStore_spec ⟨none, none⟩ "T"
      StorageType.file).1 rfl
    simpa using h
  · have h := (addStreamTemplateStore_spec
      ⟨some ["T"], some TemplateStoreKind.mem⟩ "U"
      StorageType.file).2.1 ["T"] rfl (by decide)
    simpa using h

/-- The last non-nil error of a sequence of attempted stream deletions, as
the spec phrases the cascaded-delete result: later entries win. -/
def lastError (g : String → Option String) : List String → Option String
  | [] => none
  | n :: rest =>
    match lastError g rest with
    | some e => some e
    | none => g n

/-- Helper: the keep-the-latest-error fold of `StreamTemplate.Delete`
computes exactly the last non-nil error. -/
theorem foldl_lastError (g : String → Option String) :
    ∀ (l : List String) (a : Option String),
      l.foldl (fun acc n => match g n with
        | some e => some e
        | none => acc) a =
      match lastError g l with
      | some e => some e
      | none => a := by
  intro l
  induction l with
  | nil => intro a; rfl
  | cons x xs ih =>
    intro a
    rw [List.foldl_cons, ih]
    cases hx : lastError g xs with
    | some e => simp [lastError, hx]
    | none =>
      cases hgx : g x <;> simp [lastError, hx, hgx]

/-- Claim C8: deleting a template removes it from the registry, attempts the
deletion of every name in its list that resolves to a live stream, and
returns the last non-nil stream-deletion error (success when none
failed). -/
theorem templateDelete_spec (ts : List String) (tname : String)
    (tstreams live : List String) (hasStore : Bool)
    (streamDelErr : String → Option String)
    (hmem : ts.contains tname = true) :
    (templateDelete (some ts) tname tstreams live hasStore true
        streamDelErr).1 = some (ts.filter (fun n => n ≠ tname)) ∧
    (templateDelete (some ts) tname tstreams live hasStore true
        streamDelErr).2.1 = tstreams.filter (fun n => live.contains n) ∧
    (templateDelete (some ts) tname tstreams live hasStore true
        streamDelErr).2.2 =
      (match lastError streamDelErr
          (tstreams.filter (fun n => live.contains n)) with
        | some e => Except.error e
        | none => Except.ok ()) := by
  simp only [templateDelete]
  rw [if_neg (by simpa using hmem)]
  rw [if_neg (by simp : ¬ (hasStore = true ∧ ¬ True))]
  refine ⟨rfl, rfl, ?_⟩
  rw [foldl_lastError]
  cases lastError streamDelErr (tstreams.filter (fun n => live.contains n))
    <;> rfl

/-- Claim C8 witness: template "T" lists streams A, B, C (all live); deleting A
fails with "e1" and deleting C fails with "e3"; all three deletions are
attempted, the registry entry is gone and the returned error is "e3". -/
theorem templateDelete_spec_witness :
    (templateDelete (some ["T"]) "T" ["A", "B", "C"] ["A", "B", "C"]
        true true
        (fun n => if n = "A" then some "e1"
          else if n = "C" then some "e3" else none)).1 = some [] ∧
    (templateDelete (some ["T"]) "T" ["A", "B", "C"] ["A", "B", "C"]
        true true
        (fun n => if n = "A" then some "e1"
          else if n = "C" then some "e3" else none)).2.1 =
      ["A", "B", "C"] ∧
    (templateDelete (some ["T"]) "T" ["A", "B", "C"] ["A", "B", "C"]
        true true
        (fun n => if n = "A" then some "e1"
          else if n = "C" then some "e3" else none)).2.2 =
      .error "e3" := by
  have h := templateDelete_spec ["T"] "T" ["A", "B", "C"] ["A", "B", "C"]
    true
    (fun n => if n = "A" then some "e1"
      else if n = "C" then some "e3" else none)
    (by decide)
  exact ⟨h.1, h.2.1, h.2.2⟩
